import Mathlib

/-!
Verification of the session-negotiation subsystem of the bundled MySQL
X DevAPI connector, together with the TableDelete statement guard logic.

The repository ships the connector's functional tests and tutorial
documentation and the TableDelete implementation file; the negotiation
code itself (lib/Connection and friends) is not among the sources, so the
negotiator is modelled from the specification, with its observable error
messages taken from the functional tests and the Secure_Sessions tutorial
that are part of the sources.
-/

/-- The three authentication mechanisms negotiated with the server
(spec glossary and design notes: a tagged enum over MYSQL41, PLAIN,
SHA256_MEMORY). -/
inductive AuthMechanism
  | MYSQL41
  | PLAIN
  | SHA256_MEMORY
deriving DecidableEq

/-- Wire name of a mechanism, as it appears in error messages. -/
def AuthMechanism.name : AuthMechanism → String
  | .MYSQL41 => "MYSQL41"
  | .PLAIN => "PLAIN"
  | .SHA256_MEMORY => "SHA256_MEMORY"

/-- A TCP endpoint (host plus port). -/
structure Endpoint where
  host : String
  port : Nat
deriving DecidableEq

/-- TLS protocol versions the connector knows about
(Secure_Sessions tutorial: TLSv1, TLSv1.1, TLSv1.2, TLSv1.3). -/
inductive TlsVersion
  | TLSv1
  | TLSv1_1
  | TLSv1_2
  | TLSv1_3
deriving DecidableEq

/-- Display name of a TLS version. -/
def TlsVersion.name : TlsVersion → String
  | .TLSv1 => "TLSv1"
  | .TLSv1_1 => "TLSv1.1"
  | .TLSv1_2 => "TLSv1.2"
  | .TLSv1_3 => "TLSv1.3"

/-- Pre-1.2 TLS versions are deprecated (Secure_Sessions tutorial:
"Both TLSv1 and TLSv1.1 are deprecated"). -/
def TlsVersion.isDeprecated : TlsVersion → Bool
  | .TLSv1 => true
  | .TLSv1_1 => true
  | .TLSv1_2 => false
  | .TLSv1_3 => false

/-- An error reported by the server: numeric code and message
(taxonomy: ServerRejection is a passthrough of server error
code/message). -/
structure ServerError where
  code : Nat
  msg : String
deriving DecidableEq

/-- Modelled from the spec: ConnectionOptions, the single internal
normalized configuration struct constructed by the two parsers
(configuration object and URI).  Transport kind is a Unix socket path or
an ordered list of TCP endpoints; TLS enabled flag; optional explicit
auth mechanism override; connect timeout in milliseconds. -/
structure ConnectionOptions where
  socket : Option String
  endpoints : List Endpoint
  tlsEnabled : Bool
  auth : Option AuthMechanism
  connectTimeout : Int

/-- Modelled from the spec: the environment a negotiation runs against.
The connector's networking code is not part of the sources, so the
observable behaviour of the network and server is abstracted: whether a
TCP endpoint or a Unix socket can be connected within the configured
timeout, the TLS version the handshake settles on (none when no
overlapping version/cipher exists), and whether the server accepts an
authentication mechanism over a channel of the given security
(second argument: the channel is TLS-protected or a Unix socket). -/
structure ServerModel where
  tcpReachable : Endpoint → Bool
  socketReachable : String → Bool
  tlsVersion : Option TlsVersion
  acceptsAuth : AuthMechanism → Bool → Option ServerError

/-- Observable side effects of one negotiation: socket connection
attempts, emitted warnings, and authentication attempts sent to the
server. -/
inductive Event
  | connectAttempt (target : String)
  | warning (msg : String)
  | authAttempt (m : AuthMechanism)
deriving DecidableEq

/-- Negotiation error taxonomy (spec section 7): InvalidConfiguration,
ConnectTimeout (attempted endpoint count, timeout value, message),
TLSNegotiationFailure, AuthenticationFailure (attempted mechanisms, the
last server error and the rendered message). -/
inductive NegotiationError
  | invalidConfiguration (msg : String)
  | connectTimeout (attempted : Nat) (timeoutMs : Int) (msg : String)
  | tlsNegotiationFailure
  | authenticationFailure (attempted : List AuthMechanism) (last : ServerError) (msg : String)
deriving DecidableEq

/-- The result of a successful negotiation (spec section 3): the
transport handle (kind and target), the chosen auth mechanism, and the
TLS-active flag, as reported by session.inspect(). -/
structure NegotiatedSession where
  viaUnixSocket : Bool
  target : String
  auth : AuthMechanism
  tls : Bool
deriving DecidableEq

/-- Modelled from the spec: the message constant
errors.MESSAGES.ERR_INVALID_CONNECTION_TIMEOUT_VALUE referenced by the
timeout tests; its text lives in lib/constants/errors.js, which is not
among the sources, so the constant is represented by its name. -/
def errInvalidConnectionTimeoutValue : String :=
  "ERR_INVALID_CONNECTION_TIMEOUT_VALUE"

/-- Connect-timeout error message, taken verbatim from the expectations
of test/functional/default/connection/timeout.js: the single-endpoint
and the multi-endpoint failures use two fixed sentences, both naming the
timeout value. -/
def timeoutErrorMessage (attempted : Nat) (timeoutMs : Int) : String :=
  if attempted ≤ 1 then
    "Connection attempt to the server was aborted. Timeout of " ++ toString timeoutMs ++ " ms was exceeded."
  else
    "All server connection attempts were aborted. Timeout of " ++ toString timeoutMs ++ " ms was exceeded for each selected server."

/-- Deprecation warning text, taken verbatim from the Secure_Sessions
tutorial. -/
def deprecationMessage (v : TlsVersion) : String :=
  "The connection is using " ++ v.name ++ " which is now deprecated and will be removed in a future release of MySQL. Be prepared to use TLSv1.2 or TLSv1.3 when you upgrade."

/-- Mechanism name wrapped in double quotes, as used in the composite
authentication failure message. -/
def quotedName (m : AuthMechanism) : String :=
  "\"" ++ m.name ++ "\""

/-- Authentication failure message.  When a single mechanism was
attempted (an explicit override) the server's own error message is
relayed, as the functional tests assert (error codes 1045 and 1251 and
their server messages reach the caller untouched); when the fallback
list was exhausted the composite sentence of the Secure_Sessions
tutorial names every attempted mechanism. -/
def authFailureMessage (attempted : List AuthMechanism) (last : ServerError) : String :=
  match attempted with
  | [_] => last.msg
  | _ =>
    "Authentication failed using " ++ String.intercalate " and " (attempted.map quotedName) ++ ", check username and password or try a secure connection."

/-- Modelled from the spec: authentication candidate order
(spec 4.1 step 3).  An explicit override yields the single-element list
with that mechanism; otherwise PLAIN when the channel is secure (TLS
active or Unix socket), and MYSQL41 then SHA256_MEMORY over insecure
TCP. -/
def authCandidates (override : Option AuthMechanism) (secure : Bool) : List AuthMechanism :=
  match override with
  | some m => [m]
  | none => if secure then [AuthMechanism.PLAIN] else [AuthMechanism.MYSQL41, AuthMechanism.SHA256_MEMORY]

/-- Display target of a TCP endpoint. -/
def targetName (e : Endpoint) : String :=
  e.host ++ ":" ++ toString e.port

/-- Modelled from the spec: attempt each TCP endpoint in order with the
configured connect timeout, returning the first that connects, together
with the trace of connection attempts (spec 4.1 step 1). -/
def connectFirst (S : ServerModel) : List Endpoint → Option Endpoint × List Event
  | [] => (none, [])
  | e :: rest =>
    if S.tcpReachable e then
      (some e, [Event.connectAttempt (targetName e)])
    else
      let r := connectFirst S rest
      (r.1, Event.connectAttempt (targetName e) :: r.2)

/-- Modelled from the spec: drive the candidate mechanisms in order
(spec 4.1 step 4).  On server rejection with more candidates remaining,
retry with the next; on rejection with none remaining, report the full
attempted list and the last server error; on success, report the chosen
mechanism.  The trace records every mechanism actually sent. -/
def driveAuth (accepts : AuthMechanism → Option ServerError) :
    List AuthMechanism → List AuthMechanism → ServerError →
    Except (List AuthMechanism × ServerError) AuthMechanism × List Event
  | attempted, [], lastErr => (Except.error (attempted, lastErr), [])
  | attempted, m :: rest, _ =>
    match accepts m with
    | none => (Except.ok m, [Event.authAttempt m])
    | some err =>
      let r := driveAuth accepts (attempted ++ [m]) rest err
      (r.1, Event.authAttempt m :: r.2)

/-- Modelled from the spec: the authentication stage over an established
transport, producing either the negotiated session or an
AuthenticationFailure error. -/
def finishAuth (viaUnix : Bool) (target : String) (tlsActive : Bool)
    (accepts : AuthMechanism → Option ServerError)
    (override : Option AuthMechanism) (secure : Bool) :
    Except NegotiationError NegotiatedSession × List Event :=
  match driveAuth accepts [] (authCandidates override secure) ⟨0, ""⟩ with
  | (Except.ok m, evs) => (Except.ok ⟨viaUnix, target, m, tlsActive⟩, evs)
  | (Except.error (att, err), evs) =>
    (Except.error (NegotiationError.authenticationFailure att err (authFailureMessage att err)), evs)

/-- Modelled from the spec: negotiate(options), the Session Negotiator
contract of spec 4.1, whose implementation (lib/Connection) is not among
the sources.  Validates the connect timeout, resolves the transport
(a Unix socket path is used directly and TLS is never applied to it;
otherwise TCP endpoints are attempted in order), performs the TLS
handshake when requested (emitting one deprecation warning when the
negotiated version is pre-1.2), determines the candidate order and
drives the mechanisms.  Returns the outcome and the trace of observable
side effects. -/
def negotiate (opts : ConnectionOptions) (S : ServerModel) :
    Except NegotiationError NegotiatedSession × List Event :=
  if opts.connectTimeout < 0 then
    (Except.error (NegotiationError.invalidConfiguration errInvalidConnectionTimeoutValue), [])
  else
    match opts.socket with
    | some path =>
      if S.socketReachable path then
        match finishAuth true path false (fun m => S.acceptsAuth m true) opts.auth true with
        | (r, evs) => (r, Event.connectAttempt path :: evs)
      else
        (Except.error (NegotiationError.connectTimeout 1 opts.connectTimeout (timeoutErrorMessage 1 opts.connectTimeout)),
         [Event.connectAttempt path])
    | none =>
      match connectFirst S opts.endpoints with
      | (none, evs) =>
        (Except.error (NegotiationError.connectTimeout opts.endpoints.length opts.connectTimeout
          (timeoutErrorMessage opts.endpoints.length opts.connectTimeout)), evs)
      | (some e, evs) =>
        if opts.tlsEnabled then
          match S.tlsVersion with
          | none => (Except.error NegotiationError.tlsNegotiationFailure, evs)
          | some v =>
            match finishAuth false (targetName e) true (fun m => S.acceptsAuth m true) opts.auth true with
            | (r, aEvs) =>
              (r, evs ++ (if v.isDeprecated then [Event.warning (deprecationMessage v)] else []) ++ aEvs)
        else
          match finishAuth false (targetName e) false (fun m => S.acceptsAuth m false) opts.auth false with
          | (r, aEvs) => (r, evs ++ aEvs)

/-- Modelled from the spec and the Secure_Sessions tutorial: a pool
either re-uses an idle connection (no negotiation takes place, so no
deprecation message is reported) or establishes a new one through
negotiate. -/
def poolAcquire (idle : Option NegotiatedSession) (opts : ConnectionOptions) (S : ServerModel) :
    Except NegotiationError NegotiatedSession × List Event :=
  match idle with
  | some sess => (Except.ok sess, [])
  | none => negotiate opts S

/-- Whether an event is a warning emission. -/
def Event.isWarning : Event → Bool
  | .warning _ => true
  | _ => false

/-- Number of warnings in a trace. -/
def warningCount (evs : List Event) : Nat :=
  (evs.filter Event.isWarning).length

/-- The authentication mechanisms sent to the server, in order. -/
def authAttempts (evs : List Event) : List AuthMechanism :=
  evs.filterMap fun e =>
    match e with
    | Event.authAttempt m => some m
    | _ => none

/-- Substring containment, used to state that an error message names a
mechanism or a numeric value. -/
def strContains (hay needle : String) : Prop :=
  needle.data <:+: hay.data

instance (hay needle : String) : Decidable (strContains hay needle) :=
  List.decidableInfix needle.data hay.data

/-- Modelled from the source (lib/DevAPI/TableDelete.js, among the
sources): the message constant
errors.MESSAGES.ERR_NO_EXPLICIT_CRITERIA_TABLE; its text lives in
lib/constants/errors.js, which is not among the sources, so the constant
is represented by its name. -/
def ERR_NO_EXPLICIT_CRITERIA_TABLE : String :=
  "ERR_NO_EXPLICIT_CRITERIA_TABLE"

/-- Leading- and trailing-whitespace removal on the underlying
character list, modelling JavaScript String.prototype.trim as used by
TableDelete.execute (String.trim of the Lean core is not reducible in
the kernel, so the trim is expressed with List.dropWhile). -/
def trimChars (s : String) : List Char :=
  ((s.data.dropWhile Char.isWhitespace).reverse.dropWhile Char.isWhitespace).reverse

/-- The connection state TableDelete.execute consults: whether the
connection is open (has a client instance), whether it became idle, and
the error connection.getError() returns (there is always a default
error, ERR_CONNECTION_CLOSED). -/
structure Connection where
  isOpen : Bool
  isIdle : Bool
  getError : String

/-- The state of a TableDelete statement; the constructor stores
criteria or the empty string when none is given. -/
structure TableDeleteState where
  criteria : String

/-- Outcome of TableDelete.execute: a rejected promise carrying an error
message, or a resolved result after the delete was sent. -/
inductive ExecOutcome
  | rejected (message : String)
  | resolved
deriving DecidableEq

/-- TableDelete.execute from lib/DevAPI/TableDelete.js: trim the
criteria and reject with ERR_NO_EXPLICIT_CRITERIA_TABLE when it is
empty; then, before sending any message to the server, reject with the
connection's error when the connection is not open or became idle;
otherwise send the crudRemove message.  The second component counts the
messages sent to the server. -/
def TableDelete.execute (td : TableDeleteState) (connection : Connection) :
    ExecOutcome × Nat :=
  let criteria := trimChars td.criteria
  if criteria.length = 0 then
    (ExecOutcome.rejected ERR_NO_EXPLICIT_CRITERIA_TABLE, 0)
  else if !connection.isOpen || connection.isIdle then
    (ExecOutcome.rejected connection.getError, 0)
  else
    (ExecOutcome.resolved, 1)

/-- A trace formed by appending contains the warnings of both parts. -/
theorem warningCount_append (a b : List Event) :
    warningCount (a ++ b) = warningCount a + warningCount b := by
  simp [warningCount]

/-- The mechanisms attempted in an appended trace. -/
theorem authAttempts_append (a b : List Event) :
    authAttempts (a ++ b) = authAttempts a ++ authAttempts b := by
  simp [authAttempts]

/-- Connection attempts carry no authentication traffic. -/
theorem authAttempts_connectFirst (S : ServerModel) (l : List Endpoint) :
    authAttempts (connectFirst S l).2 = [] := by
  induction l with
  | nil => rfl
  | cons e rest ih =>
    by_cases h : S.tcpReachable e <;> simp [connectFirst, h, authAttempts] at ih ⊢ <;> simpa [authAttempts] using ih

/-- Connection attempts emit no warnings. -/
theorem warningCount_connectFirst (S : ServerModel) (l : List Endpoint) :
    warningCount (connectFirst S l).2 = 0 := by
  induction l with
  | nil => rfl
  | cons e rest ih =>
    by_cases h : S.tcpReachable e <;> simp [connectFirst, h, warningCount, Event.isWarning] at ih ⊢ <;> simpa [warningCount, Event.isWarning] using ih

/-- Driving the candidates emits no warnings. -/
theorem warningCount_driveAuth (accepts : AuthMechanism → Option ServerError)
    (att l : List AuthMechanism) (e0 : ServerError) :
    warningCount (driveAuth accepts att l e0).2 = 0 := by
  induction l generalizing att e0 with
  | nil => rfl
  | cons m rest ih =>
    rcases h : accepts m with _ | err <;> simp [driveAuth, h, warningCount, Event.isWarning] <;> simpa [warningCount, Event.isWarning] using ih (att ++ [m]) err

/-- The mechanisms actually attempted form a prefix of the candidate
list: they are tried in order and nothing outside the list is sent. -/
theorem authAttempts_driveAuth (accepts : AuthMechanism → Option ServerError)
    (att l : List AuthMechanism) (e0 : ServerError) :
    authAttempts (driveAuth accepts att l e0).2 <+: l := by
  induction l generalizing att e0 with
  | nil => simp [driveAuth, authAttempts]
  | cons m rest ih =>
    rcases h : accepts m with _ | err
    · simp [driveAuth, h, authAttempts]
    · simp only [driveAuth, h, authAttempts] at ih ⊢
      obtain ⟨t, ht⟩ := ih (att ++ [m]) err
      refine ⟨t, ?_⟩
      simp [authAttempts, ht]

/-- A mechanism accepted by driveAuth is one of the candidates. -/
theorem driveAuth_ok_mem (accepts : AuthMechanism → Option ServerError)
    (att l : List AuthMechanism) (e0 : ServerError) (m : AuthMechanism)
    (h : (driveAuth accepts att l e0).1 = Except.ok m) : m ∈ l := by
  induction l generalizing att e0 with
  | nil => simp [driveAuth] at h
  | cons k rest ih =>
    rcases hk : accepts k with _ | err
    · simp [driveAuth, hk] at h
      simp [h]
    · simp only [driveAuth, hk] at h
      exact List.mem_cons_of_mem k (ih (att ++ [k]) err h)

/-- An accepted head mechanism concludes the drive at once. -/
theorem driveAuth_accept_head (accepts : AuthMechanism → Option ServerError)
    (m : AuthMechanism) (rest att : List AuthMechanism) (e0 : ServerError)
    (h : accepts m = none) :
    driveAuth accepts att (m :: rest) e0 = (Except.ok m, [Event.authAttempt m]) := by
  simp [driveAuth, h]

/-- A rejected single candidate yields its own server error. -/
theorem driveAuth_single_rejected (accepts : AuthMechanism → Option ServerError)
    (m : AuthMechanism) (err : ServerError) (e0 : ServerError)
    (h : accepts m = some err) :
    driveAuth accepts [] [m] e0 = (Except.error ([m], err), [Event.authAttempt m]) := by
  simp [driveAuth, h]

/-- Two rejected candidates yield the full attempted list and the last
server error. -/
theorem driveAuth_pair_rejected (accepts : AuthMechanism → Option ServerError)
    (m1 m2 : AuthMechanism) (e1 e2 : ServerError) (e0 : ServerError)
    (h1 : accepts m1 = some e1) (h2 : accepts m2 = some e2) :
    driveAuth accepts [] [m1, m2] e0 =
      (Except.error ([m1, m2], e2), [Event.authAttempt m1, Event.authAttempt m2]) := by
  simp [driveAuth, h1, h2]

/-- A rejected first candidate followed by an accepted second one. -/
theorem driveAuth_second_accepted (accepts : AuthMechanism → Option ServerError)
    (m1 m2 : AuthMechanism) (e1 : ServerError) (e0 : ServerError)
    (h1 : accepts m1 = some e1) (h2 : accepts m2 = none) :
    driveAuth accepts [] [m1, m2] e0 =
      (Except.ok m2, [Event.authAttempt m1, Event.authAttempt m2]) := by
  simp [driveAuth, h1, h2]

/-- A drive over a single candidate can only fail by naming exactly that
candidate together with the server error that rejected it. -/
theorem driveAuth_single_error_shape (accepts : AuthMechanism → Option ServerError)
    (m : AuthMechanism) (e0 : ServerError) (p : List AuthMechanism × ServerError)
    (h : (driveAuth accepts [] [m] e0).1 = Except.error p) :
    ∃ err, accepts m = some err ∧ p = ([m], err) := by
  rcases hm : accepts m with _ | err
  · rw [driveAuth_accept_head accepts m [] [] e0 hm] at h
    simp at h
  · rw [driveAuth_single_rejected accepts m err e0 hm] at h
    simp at h
    exact ⟨err, rfl, h.symm⟩

/-- The authentication stage reports exactly the trace of the drive. -/
theorem finishAuth_events (vu : Bool) (tg : String) (tls : Bool)
    (accepts : AuthMechanism → Option ServerError) (ov : Option AuthMechanism) (sec : Bool) :
    (finishAuth vu tg tls accepts ov sec).2 =
      (driveAuth accepts [] (authCandidates ov sec) ⟨0, ""⟩).2 := by
  unfold finishAuth
  rcases hd : driveAuth accepts [] (authCandidates ov sec) ⟨0, ""⟩ with ⟨r, evs⟩
  rcases r with ⟨att, err⟩ | m <;> rfl

/-- A session produced by the authentication stage carries the transport
handle it was given, the TLS-active flag of that transport, and one of
the candidate mechanisms. -/
theorem finishAuth_ok (vu : Bool) (tg : String) (tls : Bool)
    (accepts : AuthMechanism → Option ServerError) (ov : Option AuthMechanism) (sec : Bool)
    (sess : NegotiatedSession)
    (h : (finishAuth vu tg tls accepts ov sec).1 = Except.ok sess) :
    sess.viaUnixSocket = vu ∧ sess.target = tg ∧ sess.tls = tls ∧
      sess.auth ∈ authCandidates ov sec := by
  unfold finishAuth at h
  rcases hd : driveAuth accepts [] (authCandidates ov sec) ⟨0, ""⟩ with ⟨r, evs⟩
  rw [hd] at h
  rcases r with ⟨att, err⟩ | m
  · simp at h
  · simp at h
    have hm : m ∈ authCandidates ov sec :=
      driveAuth_ok_mem accepts [] (authCandidates ov sec) ⟨0, ""⟩ m (by rw [hd])
    rw [← h]
    exact ⟨rfl, rfl, rfl, hm⟩

/-- An authentication failure reported by the authentication stage comes
from an exhausted drive, and its message is the rendered failure
message for the attempted list and last server error. -/
theorem finishAuth_error (vu : Bool) (tg : String) (tls : Bool)
    (accepts : AuthMechanism → Option ServerError) (ov : Option AuthMechanism) (sec : Bool)
    (att : List AuthMechanism) (err : ServerError) (msg : String)
    (h : (finishAuth vu tg tls accepts ov sec).1 =
      Except.error (NegotiationError.authenticationFailure att err msg)) :
    (driveAuth accepts [] (authCandidates ov sec) ⟨0, ""⟩).1 = Except.error (att, err) ∧
      msg = authFailureMessage att err := by
  unfold finishAuth at h
  rcases hd : driveAuth accepts [] (authCandidates ov sec) ⟨0, ""⟩ with ⟨r, evs⟩
  rw [hd] at h
  rcases r with ⟨att2, err2⟩ | m
  · simp only [Except.error.injEq, NegotiationError.authenticationFailure.injEq] at h
    obtain ⟨ha, he, hm⟩ := h
    subst ha
    subst he
    subst hm
    exact ⟨rfl, rfl⟩
  · simp at h

/-- Branch reduction: a reachable Unix socket goes straight to the
authentication stage, with TLS never applied. -/
theorem negotiate_unix_connected (opts : ConnectionOptions) (S : ServerModel) (path : String)
    (ht : 0 ≤ opts.connectTimeout) (hsock : opts.socket = some path)
    (hreach : S.socketReachable path = true) :
    negotiate opts S =
      ((finishAuth true path false (fun m => S.acceptsAuth m true) opts.auth true).1,
       Event.connectAttempt path ::
         (finishAuth true path false (fun m => S.acceptsAuth m true) opts.auth true).2) := by
  simp only [negotiate, hsock, hreach, not_lt.mpr ht, if_false, if_true, ite_false, ite_true]

/-- Branch reduction: an unreachable Unix socket times out after its one
connection attempt. -/
theorem negotiate_unix_timeout (opts : ConnectionOptions) (S : ServerModel) (path : String)
    (ht : 0 ≤ opts.connectTimeout) (hsock : opts.socket = some path)
    (hreach : S.socketReachable path = false) :
    negotiate opts S =
      (Except.error (NegotiationError.connectTimeout 1 opts.connectTimeout
        (timeoutErrorMessage 1 opts.connectTimeout)),
       [Event.connectAttempt path]) := by
  simp only [negotiate, hsock, hreach, not_lt.mpr ht, if_false, if_true, ite_false, ite_true,
    Bool.false_eq_true]

/-- Branch reduction: when no TCP endpoint connects, negotiation fails
with the connect-timeout error for the whole endpoint list. -/
theorem negotiate_tcp_timeout (opts : ConnectionOptions) (S : ServerModel) (evs : List Event)
    (ht : 0 ≤ opts.connectTimeout) (hsock : opts.socket = none)
    (hc : connectFirst S opts.endpoints = (none, evs)) :
    negotiate opts S =
      (Except.error (NegotiationError.connectTimeout opts.endpoints.length opts.connectTimeout
        (timeoutErrorMessage opts.endpoints.length opts.connectTimeout)), evs) := by
  simp only [negotiate, hsock, hc, not_lt.mpr ht, if_false, if_true, ite_false, ite_true]

/-- Branch reduction: a connected endpoint with TLS disabled goes to the
authentication stage over the insecure channel. -/
theorem negotiate_tcp_insecure (opts : ConnectionOptions) (S : ServerModel)
    (e : Endpoint) (evs : List Event)
    (ht : 0 ≤ opts.connectTimeout) (hsock : opts.socket = none)
    (htls : opts.tlsEnabled = false)
    (hc : connectFirst S opts.endpoints = (some e, evs)) :
    negotiate opts S =
      ((finishAuth false (targetName e) false (fun m => S.acceptsAuth m false) opts.auth false).1,
       evs ++ (finishAuth false (targetName e) false (fun m => S.acceptsAuth m false) opts.auth false).2) := by
  simp only [negotiate, hsock, htls, hc, not_lt.mpr ht, if_false, if_true, ite_false, ite_true,
    Bool.false_eq_true]

/-- Branch reduction: a connected endpoint with TLS enabled and a
successful handshake goes to the authentication stage over the secure
channel, emitting the deprecation warning exactly when the negotiated
version is deprecated. -/
theorem negotiate_tcp_tls (opts : ConnectionOptions) (S : ServerModel)
    (e : Endpoint) (evs : List Event) (v : TlsVersion)
    (ht : 0 ≤ opts.connectTimeout) (hsock : opts.socket = none)
    (htls : opts.tlsEnabled = true)
    (hc : connectFirst S opts.endpoints = (some e, evs))
    (hv : S.tlsVersion = some v) :
    negotiate opts S =
      ((finishAuth false (targetName e) true (fun m => S.acceptsAuth m true) opts.auth true).1,
       evs ++ (if v.isDeprecated then [Event.warning (deprecationMessage v)] else []) ++
         (finishAuth false (targetName e) true (fun m => S.acceptsAuth m true) opts.auth true).2) := by
  simp only [negotiate, hsock, htls, hc, hv, not_lt.mpr ht, if_false, if_true, ite_false, ite_true]

/-- The authentication stage only ever sends candidate mechanisms, in
candidate order. -/
theorem authAttempts_finishAuth (vu : Bool) (tg : String) (tls : Bool)
    (accepts : AuthMechanism → Option ServerError) (ov : Option AuthMechanism) (sec : Bool) :
    authAttempts (finishAuth vu tg tls accepts ov sec).2 <+: authCandidates ov sec := by
  rw [finishAuth_events]
  exact authAttempts_driveAuth accepts [] (authCandidates ov sec) ⟨0, ""⟩

/-- C4: a negative connect-timeout value fails configuration validation
with the InvalidConfiguration error and an empty side-effect trace: no
socket I/O is performed and no connection attempt is made, whatever the
rest of the configuration or the network looks like. -/
theorem c4_negative_timeout_invalid_configuration (opts : ConnectionOptions) (S : ServerModel)
    (h : opts.connectTimeout < 0) :
    negotiate opts S =
      (Except.error (NegotiationError.invalidConfiguration errInvalidConnectionTimeoutValue), []) := by
  simp [negotiate, h]

/-- Witness for C4 at a concrete configuration with connect-timeout -1
(the value the timeout tests use). -/
theorem c4_negative_timeout_invalid_configuration_witness :
    negotiate ⟨none, [⟨"localhost", 33060⟩], true, none, -1⟩
        ⟨fun _ => true, fun _ => true, some TlsVersion.TLSv1_2, fun _ _ => none⟩ =
      (Except.error (NegotiationError.invalidConfiguration errInvalidConnectionTimeoutValue), []) :=
  c4_negative_timeout_invalid_configuration
    ⟨none, [⟨"localhost", 33060⟩], true, none, -1⟩
    ⟨fun _ => true, fun _ => true, some TlsVersion.TLSv1_2, fun _ _ => none⟩
    (by decide)

/-- C1: over insecure TCP (TLS disabled, no Unix socket) with no
explicit auth override, the candidate list is exactly
[MYSQL41, SHA256_MEMORY], and whatever the server does, the mechanisms
actually sent form a prefix of that list: MYSQL41 is attempted first,
SHA256_MEMORY second, and no other mechanism is ever attempted. -/
theorem c1_insecure_tcp_default_order (opts : ConnectionOptions) (S : ServerModel)
    (hsock : opts.socket = none) (htls : opts.tlsEnabled = false) (hauth : opts.auth = none) :
    authCandidates opts.auth false = [AuthMechanism.MYSQL41, AuthMechanism.SHA256_MEMORY] ∧
    authAttempts (negotiate opts S).2 <+: [AuthMechanism.MYSQL41, AuthMechanism.SHA256_MEMORY] := by
  have hcand : authCandidates opts.auth false = [AuthMechanism.MYSQL41, AuthMechanism.SHA256_MEMORY] := by
    rw [hauth]
    rfl
  refine ⟨hcand, ?_⟩
  by_cases ht : opts.connectTimeout < 0
  · rw [c4_negative_timeout_invalid_configuration opts S ht]
    exact List.nil_prefix
  · have ht2 : 0 ≤ opts.connectTimeout := not_lt.mp ht
    rcases hc : connectFirst S opts.endpoints with ⟨o, evs⟩
    have hevs : authAttempts evs = [] := by
      have h0 := authAttempts_connectFirst S opts.endpoints
      rw [hc] at h0
      exact h0
    rcases o with _ | e
    · rw [negotiate_tcp_timeout opts S evs ht2 hsock hc]
      simp only [hevs]
      exact List.nil_prefix
    · rw [negotiate_tcp_insecure opts S e evs ht2 hsock htls hc]
      simp only [authAttempts_append, hevs, List.nil_append]
      have h1 := authAttempts_finishAuth false (targetName e) false
        (fun m => S.acceptsAuth m false) opts.auth false
      rw [hcand] at h1
      exact h1

/-- Branch reduction: a connected endpoint with TLS enabled whose
handshake finds no overlapping version/cipher fails with the TLS
negotiation error. -/
theorem negotiate_tcp_tls_failure (opts : ConnectionOptions) (S : ServerModel)
    (e : Endpoint) (evs : List Event)
    (ht : 0 ≤ opts.connectTimeout) (hsock : opts.socket = none)
    (htls : opts.tlsEnabled = true)
    (hc : connectFirst S opts.endpoints = (some e, evs))
    (hv : S.tlsVersion = none) :
    negotiate opts S = (Except.error NegotiationError.tlsNegotiationFailure, evs) := by
  simp only [negotiate, hsock, htls, hc, hv, not_lt.mpr ht, if_false, if_true, ite_false, ite_true]

/-- A connection attempt contributes no authentication traffic to a
trace. -/
theorem authAttempts_cons_connect (p : String) (l : List Event) :
    authAttempts (Event.connectAttempt p :: l) = authAttempts l := rfl

/-- A possibly emitted warning contributes no authentication traffic. -/
theorem authAttempts_warning_block (b : Bool) (msg : String) :
    authAttempts (if b then [Event.warning msg] else []) = [] := by
  cases b <;> rfl

/-- C2: with no explicit auth override, when TLS is active or the
transport is a Unix socket, the candidate list is exactly [PLAIN], PLAIN
is the only mechanism ever attempted, and a successful negotiation
reports PLAIN as the chosen mechanism. -/
theorem c2_secure_default_plain (opts : ConnectionOptions) (S : ServerModel)
    (hauth : opts.auth = none)
    (hsec : opts.socket = none → opts.tlsEnabled = true) :
    authCandidates opts.auth true = [AuthMechanism.PLAIN] ∧
    authAttempts (negotiate opts S).2 <+: [AuthMechanism.PLAIN] ∧
    ∀ sess, (negotiate opts S).1 = Except.ok sess → sess.auth = AuthMechanism.PLAIN := by
  have hcand : authCandidates opts.auth true = [AuthMechanism.PLAIN] := by
    rw [hauth]
    rfl
  refine ⟨hcand, ?_⟩
  by_cases ht : opts.connectTimeout < 0
  · rw [c4_negative_timeout_invalid_configuration opts S ht]
    exact ⟨List.nil_prefix, fun sess h => by simp at h⟩
  · have ht2 : 0 ≤ opts.connectTimeout := not_lt.mp ht
    rcases hso : opts.socket with _ | path
    · have htls : opts.tlsEnabled = true := hsec hso
      rcases hc : connectFirst S opts.endpoints with ⟨o, evs⟩
      have hevs : authAttempts evs = [] := by
        have h0 := authAttempts_connectFirst S opts.endpoints
        rw [hc] at h0
        exact h0
      rcases o with _ | e
      · rw [negotiate_tcp_timeout opts S evs ht2 hso hc]
        exact ⟨by simp [hevs], fun sess h => by simp at h⟩
      · rcases hv : S.tlsVersion with _ | v
        · rw [negotiate_tcp_tls_failure opts S e evs ht2 hso htls hc hv]
          exact ⟨by simp [hevs], fun sess h => by simp at h⟩
        · rw [negotiate_tcp_tls opts S e evs v ht2 hso htls hc hv]
          constructor
          · rw [authAttempts_append, authAttempts_append, hevs,
              authAttempts_warning_block, List.nil_append, List.nil_append]
            have h1 := authAttempts_finishAuth false (targetName e) true
              (fun m => S.acceptsAuth m true) opts.auth true
            rw [hcand] at h1
            exact h1
          · intro sess h
            have h2 := (finishAuth_ok false (targetName e) true
              (fun m => S.acceptsAuth m true) opts.auth true sess h).2.2.2
            rw [hcand] at h2
            simpa using h2
    · cases hr : S.socketReachable path with
      | false =>
        rw [negotiate_unix_timeout opts S path ht2 hso hr]
        exact ⟨by simp [authAttempts], fun sess h => by simp at h⟩
      | true =>
        rw [negotiate_unix_connected opts S path ht2 hso hr]
        constructor
        · rw [authAttempts_cons_connect]
          have h1 := authAttempts_finishAuth true path false
            (fun m => S.acceptsAuth m true) opts.auth true
          rw [hcand] at h1
          exact h1
        · intro sess h
          have h2 := (finishAuth_ok true path false
            (fun m => S.acceptsAuth m true) opts.auth true sess h).2.2.2
          rw [hcand] at h2
          simpa using h2

/-- Witness for C2: a Unix-socket configuration without override against
a server that accepts PLAIN over a secure channel. -/
theorem c2_secure_default_plain_witness :
    authCandidates (none : Option AuthMechanism) true = [AuthMechanism.PLAIN] ∧
    authAttempts (negotiate ⟨some "/tmp/mysqlx.sock", [], false, none, 10000⟩
      ⟨fun _ => false, fun _ => true, none, fun _ _ => none⟩).2 <+: [AuthMechanism.PLAIN] ∧
    ∀ sess, (negotiate ⟨some "/tmp/mysqlx.sock", [], false, none, 10000⟩
      ⟨fun _ => false, fun _ => true, none, fun _ _ => none⟩).1 = Except.ok sess →
        sess.auth = AuthMechanism.PLAIN :=
  c2_secure_default_plain ⟨some "/tmp/mysqlx.sock", [], false, none, 10000⟩
    ⟨fun _ => false, fun _ => true, none, fun _ _ => none⟩
    rfl (fun h => by simp at h)

/-- Witness for C1: an insecure TCP configuration without override
against a server that rejects MYSQL41 and accepts SHA256_MEMORY. -/
theorem c1_insecure_tcp_default_order_witness :
    authCandidates (none : Option AuthMechanism) false =
      [AuthMechanism.MYSQL41, AuthMechanism.SHA256_MEMORY] ∧
    authAttempts (negotiate ⟨none, [⟨"localhost", 33060⟩], false, none, 10000⟩
        ⟨fun _ => true, fun _ => false, none,
         fun m _ => if m = AuthMechanism.SHA256_MEMORY then none else some ⟨1045, "Invalid user or password"⟩⟩).2 <+:
      [AuthMechanism.MYSQL41, AuthMechanism.SHA256_MEMORY] :=
  c1_insecure_tcp_default_order
    ⟨none, [⟨"localhost", 33060⟩], false, none, 10000⟩
    ⟨fun _ => true, fun _ => false, none,
     fun m _ => if m = AuthMechanism.SHA256_MEMORY then none else some ⟨1045, "Invalid user or password"⟩⟩
    rfl rfl rfl

/-- An authentication failure of the stage driven by an explicit
override names exactly the overridden mechanism and relays the
rejecting server error's message. -/
theorem finishAuth_override_error (vu : Bool) (tg : String) (tls : Bool)
    (accepts : AuthMechanism → Option ServerError) (m : AuthMechanism) (sec : Bool)
    (att : List AuthMechanism) (err : ServerError) (msg : String)
    (h : (finishAuth vu tg tls accepts (some m) sec).1 =
      Except.error (NegotiationError.authenticationFailure att err msg)) :
    att = [m] ∧ msg = err.msg := by
  obtain ⟨hd, hm⟩ := finishAuth_error vu tg tls accepts (some m) sec att err msg h
  have hd2 : (driveAuth accepts [] [m] ⟨0, ""⟩).1 = Except.error (att, err) := hd
  obtain ⟨err0, hacc, hp⟩ := driveAuth_single_error_shape accepts m ⟨0, ""⟩ (att, err) hd2
  have ha : att = [m] := congrArg Prod.fst hp
  subst ha
  refine ⟨rfl, ?_⟩
  rw [hm]
  rfl

/-- C3: an explicit auth override makes the candidate list the
single-element list with that mechanism, that mechanism is the only one
ever attempted (no fallback), and any authentication failure of the
negotiation names exactly that mechanism and carries that mechanism's
server error message. -/
theorem c3_override_short_circuit (opts : ConnectionOptions) (S : ServerModel) (m : AuthMechanism)
    (hauth : opts.auth = some m) :
    (∀ sec, authCandidates opts.auth sec = [m]) ∧
    authAttempts (negotiate opts S).2 <+: [m] ∧
    ∀ att err msg, (negotiate opts S).1 =
        Except.error (NegotiationError.authenticationFailure att err msg) →
      att = [m] ∧ msg = err.msg := by
  have hcand : ∀ sec, authCandidates opts.auth sec = [m] := by
    intro sec
    rw [hauth]
    rfl
  refine ⟨hcand, ?_⟩
  by_cases ht : opts.connectTimeout < 0
  · rw [c4_negative_timeout_invalid_configuration opts S ht]
    exact ⟨List.nil_prefix, fun att err msg h => by simp at h⟩
  · have ht2 : 0 ≤ opts.connectTimeout := not_lt.mp ht
    rcases hso : opts.socket with _ | path
    · rcases hc : connectFirst S opts.endpoints with ⟨o, evs⟩
      have hevs : authAttempts evs = [] := by
        have h0 := authAttempts_connectFirst S opts.endpoints
        rw [hc] at h0
        exact h0
      rcases o with _ | e
      · rw [negotiate_tcp_timeout opts S evs ht2 hso hc]
        exact ⟨by simp [hevs], fun att err msg h => by simp at h⟩
      · cases htl : opts.tlsEnabled with
        | false =>
          rw [negotiate_tcp_insecure opts S e evs ht2 hso htl hc]
          refine ⟨?_, ?_⟩
          · rw [authAttempts_append, hevs, List.nil_append]
            have h1 := authAttempts_finishAuth false (targetName e) false
              (fun k => S.acceptsAuth k false) opts.auth false
            rw [hcand false] at h1
            exact h1
          · intro att err msg h
            rw [hauth] at h
            exact finishAuth_override_error _ _ _ _ m false att err msg h
        | true =>
          rcases hv : S.tlsVersion with _ | v
          · rw [negotiate_tcp_tls_failure opts S e evs ht2 hso htl hc hv]
            exact ⟨by simp [hevs], fun att err msg h => by simp at h⟩
          · rw [negotiate_tcp_tls opts S e evs v ht2 hso htl hc hv]
            refine ⟨?_, ?_⟩
            · rw [authAttempts_append, authAttempts_append, hevs,
                authAttempts_warning_block, List.nil_append, List.nil_append]
              have h1 := authAttempts_finishAuth false (targetName e) true
                (fun k => S.acceptsAuth k true) opts.auth true
              rw [hcand true] at h1
              exact h1
            · intro att err msg h
              rw [hauth] at h
              exact finishAuth_override_error _ _ _ _ m true att err msg h
    · cases hr : S.socketReachable path with
      | false =>
        rw [negotiate_unix_timeout opts S path ht2 hso hr]
        exact ⟨by simp [authAttempts], fun att err msg h => by simp at h⟩
      | true =>
        rw [negotiate_unix_connected opts S path ht2 hso hr]
        refine ⟨?_, ?_⟩
        · rw [authAttempts_cons_connect]
          have h1 := authAttempts_finishAuth true path false
            (fun k => S.acceptsAuth k true) opts.auth true
          rw [hcand true] at h1
          exact h1
        · intro att err msg h
          rw [hauth] at h
          exact finishAuth_override_error _ _ _ _ m true att err msg h

/-- Witness for C3: the PLAIN override over insecure TCP against a
server that rejects PLAIN with error 1251, as in the functional
tests. -/
theorem c3_override_short_circuit_witness :
    (∀ sec, authCandidates (some AuthMechanism.PLAIN : Option AuthMechanism) sec = [AuthMechanism.PLAIN]) ∧
    authAttempts (negotiate ⟨none, [⟨"localhost", 33060⟩], false, some AuthMechanism.PLAIN, 10000⟩
        ⟨fun _ => true, fun _ => false, none,
         fun _ sec => if sec then none else some ⟨1251, "Invalid authentication method PLAIN"⟩⟩).2 <+:
      [AuthMechanism.PLAIN] ∧
    ∀ att err msg, (negotiate ⟨none, [⟨"localhost", 33060⟩], false, some AuthMechanism.PLAIN, 10000⟩
        ⟨fun _ => true, fun _ => false, none,
         fun _ sec => if sec then none else some ⟨1251, "Invalid authentication method PLAIN"⟩⟩).1 =
        Except.error (NegotiationError.authenticationFailure att err msg) →
      att = [AuthMechanism.PLAIN] ∧ msg = err.msg :=
  c3_override_short_circuit
    ⟨none, [⟨"localhost", 33060⟩], false, some AuthMechanism.PLAIN, 10000⟩
    ⟨fun _ => true, fun _ => false, none,
     fun _ sec => if sec then none else some ⟨1251, "Invalid authentication method PLAIN"⟩⟩
    AuthMechanism.PLAIN rfl

/-- When no endpoint is reachable the endpoint scan finds nothing. -/
theorem connectFirst_none (S : ServerModel) (l : List Endpoint)
    (h : ∀ e ∈ l, S.tcpReachable e = false) : (connectFirst S l).1 = none := by
  induction l with
  | nil => rfl
  | cons e rest ih =>
    have he := h e (List.mem_cons_self e rest)
    simp only [connectFirst, he, Bool.false_eq_true, if_false]
    exact ih fun x hx => h x (List.mem_cons_of_mem e hx)

/-- C5 (amended): when every TCP endpoint times out, negotiation fails
with a connect-timeout error carrying the attempted endpoint count and
the timeout value; the message distinguishes the single-endpoint from
the multi-endpoint case and mentions the timeout value (here checked for
the 100 ms value the tests use), but it does not name the attempted
count. -/
theorem c5_all_endpoints_timeout (opts : ConnectionOptions) (S : ServerModel)
    (hsock : opts.socket = none) (ht : 0 ≤ opts.connectTimeout)
    (hun : ∀ e ∈ opts.endpoints, S.tcpReachable e = false) :
    (negotiate opts S).1 =
      Except.error (NegotiationError.connectTimeout opts.endpoints.length opts.connectTimeout
        (timeoutErrorMessage opts.endpoints.length opts.connectTimeout)) ∧
    (opts.connectTimeout = 100 →
      strContains (timeoutErrorMessage opts.endpoints.length opts.connectTimeout) "100") := by
  have hc1 : (connectFirst S opts.endpoints).1 = none := connectFirst_none S opts.endpoints hun
  rcases hc : connectFirst S opts.endpoints with ⟨o, evs⟩
  rw [hc] at hc1
  subst hc1
  constructor
  · rw [negotiate_tcp_timeout opts S evs ht hsock hc]
  · intro h100
    rw [h100]
    by_cases hn : opts.endpoints.length ≤ 1
    · simp only [timeoutErrorMessage, hn, if_true, ite_true]
      decide
    · simp only [timeoutErrorMessage, hn, if_false, ite_false]
      decide

/-- Witness for C5 (amended) at a single unreachable endpoint with the
100 ms timeout of the tests. -/
theorem c5_all_endpoints_timeout_witness :
    (negotiate ⟨none, [⟨"localhost", 33060⟩], true, none, 100⟩
        ⟨fun _ => false, fun _ => false, none, fun _ _ => none⟩).1 =
      Except.error (NegotiationError.connectTimeout 1 100 (timeoutErrorMessage 1 100)) ∧
    ((100 : Int) = 100 → strContains (timeoutErrorMessage 1 100) "100") :=
  c5_all_endpoints_timeout ⟨none, [⟨"localhost", 33060⟩], true, none, 100⟩
    ⟨fun _ => false, fun _ => false, none, fun _ _ => none⟩
    rfl (by decide) (by decide)

set_option maxRecDepth 10000 in
/-- C5 counterexample: with two unreachable endpoints and a 100 ms
timeout the negotiation fails with the multi-endpoint timeout message,
and that message does not name the attempted count (2): the claim that
the timeout error names the attempted count of endpoints is false. -/
theorem c5_counterexample :
    (negotiate ⟨none, [⟨"localhost", 33061⟩, ⟨"localhost", 33062⟩], true, none, 100⟩
        ⟨fun _ => false, fun _ => false, none, fun _ _ => none⟩).1 =
      Except.error (NegotiationError.connectTimeout 2 100 (timeoutErrorMessage 2 100)) ∧
    ¬ strContains (timeoutErrorMessage 2 100) "2" := by
  constructor
  · rfl
  · decide

/-- C6: when a Unix socket path is given it is the transport actually
used and TLS is never applied, whatever the TLS settings in the
configuration say: any session the negotiation produces has the
TLS-active flag false and the socket path as its transport target. -/
theorem c6_unix_socket_no_tls (opts : ConnectionOptions) (S : ServerModel) (path : String)
    (hsock : opts.socket = some path) :
    ∀ sess, (negotiate opts S).1 = Except.ok sess →
      sess.tls = false ∧ sess.viaUnixSocket = true ∧ sess.target = path := by
  intro sess h
  by_cases ht : opts.connectTimeout < 0
  · rw [c4_negative_timeout_invalid_configuration opts S ht] at h
    simp at h
  · have ht2 : 0 ≤ opts.connectTimeout := not_lt.mp ht
    cases hr : S.socketReachable path with
    | false =>
      rw [negotiate_unix_timeout opts S path ht2 hsock hr] at h
      simp at h
    | true =>
      rw [negotiate_unix_connected opts S path ht2 hsock hr] at h
      obtain ⟨h1, h2, h3, _⟩ := finishAuth_ok true path false
        (fun m => S.acceptsAuth m true) opts.auth true sess h
      exact ⟨h3, h1, h2⟩

/-- Witness for C6: a configuration that asks for TLS and gives a Unix
socket path still yields a session with the TLS flag off. -/
theorem c6_unix_socket_no_tls_witness :
    (⟨true, "/tmp/mysqlx.sock", AuthMechanism.PLAIN, false⟩ : NegotiatedSession).tls = false ∧
    (⟨true, "/tmp/mysqlx.sock", AuthMechanism.PLAIN, false⟩ : NegotiatedSession).viaUnixSocket = true ∧
    (⟨true, "/tmp/mysqlx.sock", AuthMechanism.PLAIN, false⟩ : NegotiatedSession).target = "/tmp/mysqlx.sock" :=
  c6_unix_socket_no_tls ⟨some "/tmp/mysqlx.sock", [], true, none, 10000⟩
    ⟨fun _ => false, fun _ => true, some TlsVersion.TLSv1_2, fun _ _ => none⟩
    "/tmp/mysqlx.sock" rfl
    ⟨true, "/tmp/mysqlx.sock", AuthMechanism.PLAIN, false⟩ rfl

/-- C7: a newly established connection whose TLS handshake settles on a
version emits exactly one deprecation warning when that version is
deprecated (pre-1.2) and none otherwise, and a pooled idle connection
that is re-used emits no warning at all. -/
theorem c7_deprecation_warning_once (opts : ConnectionOptions) (S : ServerModel)
    (e : Endpoint) (evs : List Event) (v : TlsVersion) (idle : NegotiatedSession)
    (hsock : opts.socket = none) (htls : opts.tlsEnabled = true)
    (ht : 0 ≤ opts.connectTimeout)
    (hc : connectFirst S opts.endpoints = (some e, evs))
    (hv : S.tlsVersion = some v) :
    warningCount (negotiate opts S).2 = (if v.isDeprecated then 1 else 0) ∧
    warningCount (poolAcquire (some idle) opts S).2 = 0 := by
  constructor
  · rw [negotiate_tcp_tls opts S e evs v ht hsock htls hc hv]
    have h1 : warningCount evs = 0 := by
      have h0 := warningCount_connectFirst S opts.endpoints
      rw [hc] at h0
      exact h0
    have h2 : warningCount (finishAuth false (targetName e) true
        (fun m => S.acceptsAuth m true) opts.auth true).2 = 0 := by
      rw [finishAuth_events]
      exact warningCount_driveAuth _ _ _ _
    simp only [warningCount_append, h1, h2, Nat.zero_add, Nat.add_zero]
    cases v.isDeprecated <;> rfl
  · rfl

/-- Witness for C7: a fresh connection that settles on TLSv1.1 emits one
warning, and re-using an idle pooled connection emits none. -/
theorem c7_deprecation_warning_once_witness :
    warningCount (negotiate ⟨none, [⟨"localhost", 33060⟩], true, none, 10000⟩
        ⟨fun _ => true, fun _ => false, some TlsVersion.TLSv1_1, fun _ _ => none⟩).2 =
      (if TlsVersion.TLSv1_1.isDeprecated then 1 else 0) ∧
    warningCount (poolAcquire (some ⟨false, "localhost:33060", AuthMechanism.PLAIN, true⟩)
        ⟨none, [⟨"localhost", 33060⟩], true, none, 10000⟩
        ⟨fun _ => true, fun _ => false, some TlsVersion.TLSv1_1, fun _ _ => none⟩).2 = 0 :=
  c7_deprecation_warning_once ⟨none, [⟨"localhost", 33060⟩], true, none, 10000⟩
    ⟨fun _ => true, fun _ => false, some TlsVersion.TLSv1_1, fun _ _ => none⟩
    ⟨"localhost", 33060⟩ [Event.connectAttempt (targetName ⟨"localhost", 33060⟩)]
    TlsVersion.TLSv1_1 ⟨false, "localhost:33060", AuthMechanism.PLAIN, true⟩
    rfl rfl (by decide) rfl rfl

/-- Authentication stage outcome when an explicit override is rejected:
the error names exactly the overridden mechanism and relays the server
error message, after a single attempt. -/
theorem finishAuth_override_rejected (vu : Bool) (tg : String) (tls : Bool)
    (accepts : AuthMechanism → Option ServerError) (m : AuthMechanism) (err : ServerError)
    (sec : Bool) (h : accepts m = some err) :
    finishAuth vu tg tls accepts (some m) sec =
      (Except.error (NegotiationError.authenticationFailure [m] err err.msg),
       [Event.authAttempt m]) := by
  unfold finishAuth
  rw [show authCandidates (some m) sec = [m] from rfl,
    driveAuth_single_rejected accepts m err ⟨0, ""⟩ h]
  rfl

/-- Authentication stage outcome over the default insecure candidate
list when both mechanisms are rejected: the composite failure naming
both mechanisms, after both were attempted. -/
theorem finishAuth_default_insecure_bothFail (vu : Bool) (tg : String) (tls : Bool)
    (accepts : AuthMechanism → Option ServerError) (e1 e2 : ServerError)
    (h1 : accepts AuthMechanism.MYSQL41 = some e1)
    (h2 : accepts AuthMechanism.SHA256_MEMORY = some e2) :
    finishAuth vu tg tls accepts none false =
      (Except.error (NegotiationError.authenticationFailure
        [AuthMechanism.MYSQL41, AuthMechanism.SHA256_MEMORY] e2
        (authFailureMessage [AuthMechanism.MYSQL41, AuthMechanism.SHA256_MEMORY] e2)),
       [Event.authAttempt AuthMechanism.MYSQL41, Event.authAttempt AuthMechanism.SHA256_MEMORY]) := by
  unfold finishAuth
  rw [show authCandidates none false = [AuthMechanism.MYSQL41, AuthMechanism.SHA256_MEMORY] from rfl,
    driveAuth_pair_rejected accepts AuthMechanism.MYSQL41 AuthMechanism.SHA256_MEMORY e1 e2 ⟨0, ""⟩ h1 h2]

/-- Authentication stage outcome over the default insecure candidate
list when MYSQL41 is accepted at once. -/
theorem finishAuth_default_insecure_firstOk (vu : Bool) (tg : String) (tls : Bool)
    (accepts : AuthMechanism → Option ServerError)
    (h1 : accepts AuthMechanism.MYSQL41 = none) :
    finishAuth vu tg tls accepts none false =
      (Except.ok ⟨vu, tg, AuthMechanism.MYSQL41, tls⟩,
       [Event.authAttempt AuthMechanism.MYSQL41]) := by
  unfold finishAuth
  rw [show authCandidates none false = [AuthMechanism.MYSQL41, AuthMechanism.SHA256_MEMORY] from rfl,
    driveAuth_accept_head accepts AuthMechanism.MYSQL41 [AuthMechanism.SHA256_MEMORY] [] ⟨0, ""⟩ h1]

/-- Authentication stage outcome over the default insecure candidate
list when MYSQL41 is rejected and SHA256_MEMORY accepted on retry. -/
theorem finishAuth_default_insecure_secondOk (vu : Bool) (tg : String) (tls : Bool)
    (accepts : AuthMechanism → Option ServerError) (e1 : ServerError)
    (h1 : accepts AuthMechanism.MYSQL41 = some e1)
    (h2 : accepts AuthMechanism.SHA256_MEMORY = none) :
    finishAuth vu tg tls accepts none false =
      (Except.ok ⟨vu, tg, AuthMechanism.SHA256_MEMORY, tls⟩,
       [Event.authAttempt AuthMechanism.MYSQL41, Event.authAttempt AuthMechanism.SHA256_MEMORY]) := by
  unfold finishAuth
  rw [show authCandidates none false = [AuthMechanism.MYSQL41, AuthMechanism.SHA256_MEMORY] from rfl,
    driveAuth_second_accepted accepts AuthMechanism.MYSQL41 AuthMechanism.SHA256_MEMORY e1 ⟨0, ""⟩ h1 h2]

set_option maxRecDepth 10000 in
/-- C8 counterexample: a negotiation with an explicit MYSQL41 override
whose single candidate is rejected (as in the caching_sha2_password
docs and tests, server error 1045 "Invalid user or password") exhausts
its candidates, yet the resulting error relays the server message and
does not name the attempted mechanism, so it is not the composite
AuthenticationFailure the claim describes for every exhausted
negotiation. -/
theorem c8_counterexample :
    (negotiate ⟨none, [⟨"localhost", 33060⟩], true, some AuthMechanism.MYSQL41, 10000⟩
        ⟨fun _ => true, fun _ => false, some TlsVersion.TLSv1_2,
         fun _ _ => some ⟨1045, "Invalid user or password"⟩⟩).1 =
      Except.error (NegotiationError.authenticationFailure [AuthMechanism.MYSQL41]
        ⟨1045, "Invalid user or password"⟩ "Invalid user or password") ∧
    ¬ strContains "Invalid user or password" "MYSQL41" := by
  constructor
  · rfl
  · decide

set_option maxRecDepth 10000 in
/-- C8 (amended): over insecure TCP without override, when the server
rejects both default candidates the negotiation fails with the
composite error naming every attempted mechanism (MYSQL41 and
SHA256_MEMORY); when an explicit override is rejected the server's own
error is relayed instead (see the counterexample); and whenever a
candidate succeeds a NegotiatedSession is returned with that
mechanism. -/
theorem c8_exhaustion_composite_or_success (opts : ConnectionOptions) (S : ServerModel)
    (e : Endpoint) (evs : List Event) (e1 e2 : ServerError)
    (hsock : opts.socket = none) (htls : opts.tlsEnabled = false)
    (hauth : opts.auth = none) (ht : 0 ≤ opts.connectTimeout)
    (hc : connectFirst S opts.endpoints = (some e, evs)) :
    (S.acceptsAuth AuthMechanism.MYSQL41 false = some e1 →
     S.acceptsAuth AuthMechanism.SHA256_MEMORY false = some e2 →
      (negotiate opts S).1 = Except.error (NegotiationError.authenticationFailure
        [AuthMechanism.MYSQL41, AuthMechanism.SHA256_MEMORY] e2
        (authFailureMessage [AuthMechanism.MYSQL41, AuthMechanism.SHA256_MEMORY] e2)) ∧
      strContains (authFailureMessage [AuthMechanism.MYSQL41, AuthMechanism.SHA256_MEMORY] e2)
        "MYSQL41" ∧
      strContains (authFailureMessage [AuthMechanism.MYSQL41, AuthMechanism.SHA256_MEMORY] e2)
        "SHA256_MEMORY") ∧
    (S.acceptsAuth AuthMechanism.MYSQL41 false = none →
      (negotiate opts S).1 = Except.ok ⟨false, targetName e, AuthMechanism.MYSQL41, false⟩) ∧
    (S.acceptsAuth AuthMechanism.MYSQL41 false = some e1 →
     S.acceptsAuth AuthMechanism.SHA256_MEMORY false = none →
      (negotiate opts S).1 = Except.ok ⟨false, targetName e, AuthMechanism.SHA256_MEMORY, false⟩) := by
  rw [negotiate_tcp_insecure opts S e evs ht hsock htls hc, hauth]
  refine ⟨?_, ?_, ?_⟩
  · intro h1 h2
    rw [finishAuth_default_insecure_bothFail false (targetName e) false
      (fun k => S.acceptsAuth k false) e1 e2 h1 h2]
    have hmsg : authFailureMessage [AuthMechanism.MYSQL41, AuthMechanism.SHA256_MEMORY] e2 =
        authFailureMessage [AuthMechanism.MYSQL41, AuthMechanism.SHA256_MEMORY] ⟨0, ""⟩ := rfl
    refine ⟨rfl, ?_, ?_⟩
    · rw [hmsg]
      decide
    · rw [hmsg]
      decide
  · intro h1
    rw [finishAuth_default_insecure_firstOk false (targetName e) false
      (fun k => S.acceptsAuth k false) h1]
  · intro h1 h2
    rw [finishAuth_default_insecure_secondOk false (targetName e) false
      (fun k => S.acceptsAuth k false) e1 h1 h2]

/-- Witness for C8 (amended): both default candidates rejected over
insecure TCP, yielding the composite message of the
caching_sha2_password docs. -/
theorem c8_exhaustion_composite_or_success_witness :
    ((⟨fun _ => true, fun _ => false, none,
        fun _ _ => some ⟨1045, "Invalid user or password"⟩⟩ : ServerModel).acceptsAuth
          AuthMechanism.MYSQL41 false = some ⟨1045, "Invalid user or password"⟩ →
     (⟨fun _ => true, fun _ => false, none,
        fun _ _ => some ⟨1045, "Invalid user or password"⟩⟩ : ServerModel).acceptsAuth
          AuthMechanism.SHA256_MEMORY false = some ⟨1045, "Invalid user or password"⟩ →
      (negotiate ⟨none, [⟨"localhost", 33060⟩], false, none, 10000⟩
          ⟨fun _ => true, fun _ => false, none,
           fun _ _ => some ⟨1045, "Invalid user or password"⟩⟩).1 =
        Except.error (NegotiationError.authenticationFailure
          [AuthMechanism.MYSQL41, AuthMechanism.SHA256_MEMORY] ⟨1045, "Invalid user or password"⟩
          (authFailureMessage [AuthMechanism.MYSQL41, AuthMechanism.SHA256_MEMORY]
            ⟨1045, "Invalid user or password"⟩)) ∧
      strContains (authFailureMessage [AuthMechanism.MYSQL41, AuthMechanism.SHA256_MEMORY]
        ⟨1045, "Invalid user or password"⟩) "MYSQL41" ∧
      strContains (authFailureMessage [AuthMechanism.MYSQL41, AuthMechanism.SHA256_MEMORY]
        ⟨1045, "Invalid user or password"⟩) "SHA256_MEMORY") ∧
    ((⟨fun _ => true, fun _ => false, none,
        fun _ _ => some ⟨1045, "Invalid user or password"⟩⟩ : ServerModel).acceptsAuth
          AuthMechanism.MYSQL41 false = none →
      (negotiate ⟨none, [⟨"localhost", 33060⟩], false, none, 10000⟩
          ⟨fun _ => true, fun _ => false, none,
           fun _ _ => some ⟨1045, "Invalid user or password"⟩⟩).1 =
        Except.ok ⟨false, targetName ⟨"localhost", 33060⟩, AuthMechanism.MYSQL41, false⟩) ∧
    ((⟨fun _ => true, fun _ => false, none,
        fun _ _ => some ⟨1045, "Invalid user or password"⟩⟩ : ServerModel).acceptsAuth
          AuthMechanism.MYSQL41 false = some ⟨1045, "Invalid user or password"⟩ →
     (⟨fun _ => true, fun _ => false, none,
        fun _ _ => some ⟨1045, "Invalid user or password"⟩⟩ : ServerModel).acceptsAuth
          AuthMechanism.SHA256_MEMORY false = none →
      (negotiate ⟨none, [⟨"localhost", 33060⟩], false, none, 10000⟩
          ⟨fun _ => true, fun _ => false, none,
           fun _ _ => some ⟨1045, "Invalid user or password"⟩⟩).1 =
        Except.ok ⟨false, targetName ⟨"localhost", 33060⟩, AuthMechanism.SHA256_MEMORY, false⟩) :=
  c8_exhaustion_composite_or_success
    ⟨none, [⟨"localhost", 33060⟩], false, none, 10000⟩
    ⟨fun _ => true, fun _ => false, none, fun _ _ => some ⟨1045, "Invalid user or password"⟩⟩
    ⟨"localhost", 33060⟩ [Event.connectAttempt (targetName ⟨"localhost", 33060⟩)]
    ⟨1045, "Invalid user or password"⟩ ⟨1045, "Invalid user or password"⟩
    rfl rfl rfl (by decide) rfl

/-- C9: with the PLAIN override over insecure TCP (no TLS, no Unix
socket), against a server that rejects PLAIN on an insecure channel
(the documented behaviour, treated as authoritative), negotiation
always fails and the server's rejection is surfaced to the caller. -/
theorem c9_plain_override_insecure_fails (opts : ConnectionOptions) (S : ServerModel)
    (e : Endpoint) (evs : List Event) (err : ServerError)
    (hsock : opts.socket = none) (htls : opts.tlsEnabled = false)
    (hauth : opts.auth = some AuthMechanism.PLAIN) (ht : 0 ≤ opts.connectTimeout)
    (hc : connectFirst S opts.endpoints = (some e, evs))
    (hS : S.acceptsAuth AuthMechanism.PLAIN false = some err) :
    (negotiate opts S).1 =
      Except.error (NegotiationError.authenticationFailure [AuthMechanism.PLAIN] err err.msg) := by
  rw [negotiate_tcp_insecure opts S e evs ht hsock htls hc, hauth,
    finishAuth_override_rejected false (targetName e) false
      (fun k => S.acceptsAuth k false) AuthMechanism.PLAIN err false hS]

/-- Witness for C9: the PLAIN override over plain TCP against a server
answering with error 1251, as the mysql_native_password tests expect. -/
theorem c9_plain_override_insecure_fails_witness :
    (negotiate ⟨none, [⟨"localhost", 33060⟩], false, some AuthMechanism.PLAIN, 10000⟩
        ⟨fun _ => true, fun _ => false, none,
         fun _ sec => if sec then none else some ⟨1251, "Invalid authentication method PLAIN"⟩⟩).1 =
      Except.error (NegotiationError.authenticationFailure [AuthMechanism.PLAIN]
        ⟨1251, "Invalid authentication method PLAIN"⟩
        (ServerError.msg ⟨1251, "Invalid authentication method PLAIN"⟩)) :=
  c9_plain_override_insecure_fails
    ⟨none, [⟨"localhost", 33060⟩], false, some AuthMechanism.PLAIN, 10000⟩
    ⟨fun _ => true, fun _ => false, none,
     fun _ sec => if sec then none else some ⟨1251, "Invalid authentication method PLAIN"⟩⟩
    ⟨"localhost", 33060⟩ [Event.connectAttempt (targetName ⟨"localhost", 33060⟩)]
    ⟨1251, "Invalid authentication method PLAIN"⟩
    rfl rfl rfl (by decide) rfl rfl

/-- C10: TableDelete.execute rejects with ERR_NO_EXPLICIT_CRITERIA_TABLE
when the trimmed criteria is empty, rejects with the connection's error
when the criteria is non-trivial but the connection is not open or has
become idle, and in both cases sends nothing to the server; a message
is sent only when the criteria is explicit and the connection open and
not idle. -/
theorem c10_tableDelete_guards (td : TableDeleteState) (c : Connection) :
    ((trimChars td.criteria).length = 0 →
      TableDelete.execute td c = (ExecOutcome.rejected ERR_NO_EXPLICIT_CRITERIA_TABLE, 0)) ∧
    ((trimChars td.criteria).length ≠ 0 → (c.isOpen = false ∨ c.isIdle = true) →
      TableDelete.execute td c = (ExecOutcome.rejected c.getError, 0)) ∧
    ((TableDelete.execute td c).2 ≠ 0 →
      (trimChars td.criteria).length ≠ 0 ∧ c.isOpen = true ∧ c.isIdle = false) := by
  refine ⟨?_, ?_, ?_⟩
  · intro h
    simp [TableDelete.execute, h]
  · intro h hcl
    have hb : (!c.isOpen || c.isIdle) = true := by
      rcases hcl with h1 | h1 <;> simp [h1]
    simp [TableDelete.execute, h, hb]
  · intro h
    by_cases h1 : (trimChars td.criteria).length = 0
    · simp [TableDelete.execute, h1] at h
    · cases ho : c.isOpen with
      | false => simp [TableDelete.execute, h1, ho] at h
      | true =>
        cases hi : c.isIdle with
        | false => exact ⟨h1, rfl, rfl⟩
        | true => simp [TableDelete.execute, h1, ho, hi] at h

/-- Witness for C10: whitespace-only criteria is rejected with the
explicit-criteria error and nothing is sent. -/
theorem c10_tableDelete_guards_witness :
    TableDelete.execute ⟨"  "⟩ ⟨true, false, "This session was closed."⟩ =
      (ExecOutcome.rejected ERR_NO_EXPLICIT_CRITERIA_TABLE, 0) :=
  (c10_tableDelete_guards ⟨"  "⟩ ⟨true, false, "This session was closed."⟩).1 (by decide)
